import Mathlib

/- Shallow embedding of the compliance-requirement resolution and
documentation-score engine of the property-management backend
(`src/models/property_types.py`) together with the documentation-score
read endpoint (`src/routes/property_types.py`), and theorems settling
the specification claims about them.

The database state relevant to these functions is modelled per property:
the (possibly absent) `EnhancedProperty` row, its `ComplianceItem` rows
and its `PropertyDocumentationGap` rows.  The ambient ORM session is
modelled by explicit state passing: each stateful function returns its
Python return value together with the post-commit database state.
Python floats are modelled by exact rationals. -/

/-- Enumeration `PropertyType` of `src/models/property_types.py`. -/
inductive PropertyType where
  | FREESTANDING_HOUSE
  | SECTIONAL_TITLE_APARTMENT
  | SECTIONAL_TITLE_TOWNHOUSE
  | CLUSTER_HOME
  | COMMERCIAL_OFFICE
  | RETAIL_SPACE
  | SHOPPING_MALL
  | SCHOOL
  | HOSPITAL
  | INDUSTRIAL
  | VACANT_LAND
  deriving DecidableEq, Repr

/-- Enumeration `OwnershipType` of `src/models/property_types.py`. -/
inductive OwnershipType where
  | INDIVIDUAL
  | SECTIONAL_TITLE
  | SHARE_BLOCK
  | COMPANY
  | TRUST
  | BODY_CORPORATE
  deriving DecidableEq, Repr

/-- Enumeration `FloorLevel` of `src/models/property_types.py`. -/
inductive FloorLevel where
  | GROUND_FLOOR
  | MIDDLE_FLOOR
  | TOP_FLOOR
  | PENTHOUSE
  | BASEMENT
  deriving DecidableEq, Repr

/-- One entry of the rule table: the dictionaries
`{'name': ..., 'category': ..., 'individual_responsibility': ...}`
built by `get_applicable_compliance_items`. -/
structure ComplianceRequirement where
  name : String
  category : String
  individual_responsibility : Bool
  deriving DecidableEq, Repr

/-- Persisted `ComplianceItem` row (`src/models/property_types.py`),
restricted to the columns the compliance engine and its routes read or
write; the remaining columns (dates, document paths, ...) are never
inspected by the functions modelled here. -/
structure ComplianceItem where
  name : String
  category : String
  is_individual_responsibility : Bool
  responsible_party : String
  is_required : Bool
  is_compliant : Bool
  certificate_number : Option String
  deriving DecidableEq, Repr

/-- Persisted `EnhancedProperty` row (`src/models/property_types.py`),
restricted to the columns read or written by the compliance engine and
the documentation-score endpoint. -/
structure EnhancedProperty where
  id : Nat
  user_id : Nat
  name : String
  address : String
  property_type : PropertyType
  ownership_type : OwnershipType
  floor_level : Option FloorLevel
  documentation_score : Rat
  council_data_imported : Bool
  is_active : Bool
  deriving DecidableEq, Repr

/-- Persisted `PropertyDocumentationGap` row
(`src/models/property_types.py`), restricted to the columns the gap
detector writes and the endpoint reads. -/
structure PropertyDocumentationGap where
  property_id : Nat
  gap_type : String
  description : String
  severity : String
  is_resolved : Bool
  deriving DecidableEq, Repr

/-- Database state for a single property id: the (possibly absent)
property row, its `ComplianceItem` rows and its
`PropertyDocumentationGap` rows, in insertion order. -/
structure DBState where
  prop : Option EnhancedProperty
  compliance_items : List ComplianceItem
  gaps : List PropertyDocumentationGap
  deriving DecidableEq, Repr

/-- Rule table `get_applicable_compliance_items(property_type,
ownership_type, floor_level=None)` of `src/models/property_types.py`,
lines 265 to 328, translated branch for branch from the if/elif chain. -/
def get_applicable_compliance_items (property_type : PropertyType)
    (ownership_type : OwnershipType)
    (floor_level : Option FloorLevel := none) : List ComplianceRequirement :=
  match property_type with
  | PropertyType.FREESTANDING_HOUSE =>
    [ { name := "Electrical COC", category := "electrical", individual_responsibility := true },
      { name := "Plumbing COC", category := "plumbing", individual_responsibility := true },
      { name := "Gas COC", category := "gas", individual_responsibility := true },
      { name := "Roof Inspection", category := "structural", individual_responsibility := true },
      { name := "Pool COC", category := "safety", individual_responsibility := true } ]
  | PropertyType.SECTIONAL_TITLE_APARTMENT | PropertyType.SECTIONAL_TITLE_TOWNHOUSE =>
    let base_requirements : List ComplianceRequirement :=
      [ { name := "Unit Electrical COC", category := "electrical", individual_responsibility := true },
        { name := "Unit Plumbing COC", category := "plumbing", individual_responsibility := true },
        { name := "Common Area Electrical", category := "electrical", individual_responsibility := false },
        { name := "Building Structural", category := "structural", individual_responsibility := false } ]
    match floor_level with
    | some FloorLevel.TOP_FLOOR =>
      base_requirements ++
        [ { name := "Roof Access COC", category := "structural", individual_responsibility := true } ]
    | some FloorLevel.GROUND_FLOOR =>
      base_requirements ++
        [ { name := "Foundation Inspection", category := "structural", individual_responsibility := false } ]
    | _ => base_requirements
  | PropertyType.COMMERCIAL_OFFICE =>
    [ { name := "Fire Safety COC", category := "safety", individual_responsibility := true },
      { name := "Occupancy Certificate", category := "legal", individual_responsibility := true },
      { name := "HVAC System COC", category := "mechanical", individual_responsibility := true },
      { name := "Accessibility Compliance", category := "accessibility", individual_responsibility := true } ]
  | PropertyType.SCHOOL =>
    [ { name := "Fire Safety COC", category := "safety", individual_responsibility := true },
      { name := "Playground Safety", category := "safety", individual_responsibility := true },
      { name := "Food Service COC", category := "health", individual_responsibility := true },
      { name := "Transportation Safety", category := "safety", individual_responsibility := true },
      { name := "Accessibility Compliance", category := "accessibility", individual_responsibility := true } ]
  | PropertyType.HOSPITAL =>
    [ { name := "Medical Gas Systems", category := "medical", individual_responsibility := true },
      { name := "Emergency Power Systems", category := "electrical", individual_responsibility := true },
      { name := "Infection Control Systems", category := "health", individual_responsibility := true },
      { name := "Waste Management COC", category := "environmental", individual_responsibility := true },
      { name := "Radiation Safety", category := "safety", individual_responsibility := true } ]
  | _ => []

/-- Scorer `calculate_documentation_score(property_id)` of
`src/models/property_types.py`, lines 330 to 361.  Returns the Python
return value paired with the database state after the session commit.
On the early-return branches (missing property, empty rule table) the
state is returned untouched, exactly as the Python returns before
reaching the `property_obj.documentation_score = score` assignment. -/
def calculate_documentation_score (st : DBState) : Rat × DBState :=
  match st.prop with
  | none => (0, st)
  | some property_obj =>
    let required_items := get_applicable_compliance_items
      property_obj.property_type property_obj.ownership_type property_obj.floor_level
    if required_items.isEmpty then
      (100, st)
    else
      let compliant_count := (st.compliance_items.filter (fun item => item.is_compliant)).length
      let score : Rat := (compliant_count : Rat) / (required_items.length : Rat) * 100
      (score, { st with prop := some { property_obj with documentation_score := score } })

/-- Gap detector `identify_documentation_gaps(property_id)` of
`src/models/property_types.py`, lines 363 to 398.  Returns the list of
newly constructed gap rows paired with the database state after they
are added and committed. -/
def identify_documentation_gaps (st : DBState) :
    List PropertyDocumentationGap × DBState :=
  match st.prop with
  | none => ([], st)
  | some property_obj =>
    let required_items := get_applicable_compliance_items
      property_obj.property_type property_obj.ownership_type property_obj.floor_level
    let existing_names := st.compliance_items.map (fun item => item.name)
    let new_gaps :=
      (required_items.filter (fun required_item =>
        !(existing_names.contains required_item.name))).map
        (fun required_item =>
          { property_id := property_obj.id
            gap_type := "missing_compliance"
            description := "Missing " ++ required_item.name ++ " for " ++
              required_item.category ++ " compliance"
            severity := if required_item.individual_responsibility then "high" else "medium"
            is_resolved := false })
    (new_gaps, { st with gaps := st.gaps ++ new_gaps })

/-- JSON body returned by the documentation-score read endpoint,
restricted to its numeric and boolean payload. -/
structure DocumentationScoreResponse where
  property_id : Nat
  documentation_score : Rat
  total_items : Nat
  compliant_items : Nat
  compliance_percentage : Rat
  total_gaps : Nat
  resolved_gaps : Nat
  resolution_percentage : Rat
  council_data_imported : Bool
  deriving DecidableEq, Repr

/-- Read endpoint `get_documentation_score(property_id)` of
`src/routes/property_types.py`, lines 344 to 375.  `none` models the
404 abort of `get_or_404`; otherwise the JSON payload is returned
together with the state left by the embedded call to
`calculate_documentation_score`. -/
def get_documentation_score (st : DBState) :
    Option (DocumentationScoreResponse × DBState) :=
  match st.prop with
  | none => none
  | some property_obj =>
    let total_items := st.compliance_items.length
    let compliant_items :=
      (st.compliance_items.filter (fun item => item.is_compliant)).length
    let total_gaps := st.gaps.length
    let resolved_gaps := (st.gaps.filter (fun gap => gap.is_resolved)).length
    let result := calculate_documentation_score st
    some
      ({ property_id := property_obj.id
         documentation_score := result.fst
         total_items := total_items
         compliant_items := compliant_items
         compliance_percentage :=
           if total_items > 0 then
             (compliant_items : Rat) / (total_items : Rat) * 100
           else 0
         total_gaps := total_gaps
         resolved_gaps := resolved_gaps
         resolution_percentage :=
           if total_gaps > 0 then
             (resolved_gaps : Rat) / (total_gaps : Rat) * 100
           else 100
         council_data_imported := property_obj.council_data_imported },
       result.snd)

/-- ComplianceItem row as the property-creation route
(`src/routes/property_types.py`, lines 66 to 76) persists it for a
requirement, with an `is_compliant` flag that the compliance-update
route may have set later. -/
def itemOfRequirement (req : ComplianceRequirement) (compliant : Bool) :
    ComplianceItem :=
  { name := req.name
    category := req.category
    is_individual_responsibility := req.individual_responsibility
    responsible_party := if req.individual_responsibility then "Owner" else "Body Corporate"
    is_required := true
    is_compliant := compliant
    certificate_number := none }

/-- Gap row as `identify_documentation_gaps` constructs it for a missing
requirement; used to state what the gap detector must produce. -/
def gapOfRequirement (pid : Nat) (req : ComplianceRequirement) :
    PropertyDocumentationGap :=
  { property_id := pid
    gap_type := "missing_compliance"
    description := "Missing " ++ req.name ++ " for " ++ req.category ++ " compliance"
    severity := if req.individual_responsibility then "high" else "medium"
    is_resolved := false }

/-- Property row with a given classification and the column defaults of
`EnhancedProperty` (`documentation_score = 0.0`, flags at their
defaults); used to build concrete database states. -/
def exampleProperty (pt : PropertyType) (o : OwnershipType)
    (fl : Option FloorLevel) : EnhancedProperty :=
  { id := 1
    user_id := 7
    name := "Example Property"
    address := "1 Example Road"
    property_type := pt
    ownership_type := o
    floor_level := fl
    documentation_score := 0
    council_data_imported := false
    is_active := true }

/-- The four base sectional-title requirements named by the spec
(section 4.1), as expected values for the rule table. -/
def specSectionalBase : List ComplianceRequirement :=
  [ { name := "Unit Electrical COC", category := "electrical", individual_responsibility := true },
    { name := "Unit Plumbing COC", category := "plumbing", individual_responsibility := true },
    { name := "Common Area Electrical", category := "electrical", individual_responsibility := false },
    { name := "Building Structural", category := "structural", individual_responsibility := false } ]

/-- The top-floor addendum named by the spec (section 4.1). -/
def specRoofAccess : ComplianceRequirement :=
  { name := "Roof Access COC", category := "structural", individual_responsibility := true }

/-- The ground-floor addendum named by the spec (section 4.1). -/
def specFoundation : ComplianceRequirement :=
  { name := "Foundation Inspection", category := "structural", individual_responsibility := false }

/-- The five hospital requirements named by the spec (section 4.1), as
expected values for the rule table. -/
def specHospitalRules : List ComplianceRequirement :=
  [ { name := "Medical Gas Systems", category := "medical", individual_responsibility := true },
    { name := "Emergency Power Systems", category := "electrical", individual_responsibility := true },
    { name := "Infection Control Systems", category := "health", individual_responsibility := true },
    { name := "Waste Management COC", category := "environmental", individual_responsibility := true },
    { name := "Radiation Safety", category := "safety", individual_responsibility := true } ]

/-- The commercial-office requirement left uncreated in the claim C7
scenario. -/
def specAccessibility : ComplianceRequirement :=
  { name := "Accessibility Compliance", category := "accessibility",
    individual_responsibility := true }

/-- Database state of a vacant-land property with no compliance items
and no gaps, stored score still at its 0.0 default. -/
def vacantLandState : DBState :=
  { prop := some (exampleProperty PropertyType.VACANT_LAND OwnershipType.INDIVIDUAL none)
    compliance_items := []
    gaps := [] }

/-- Database state of a hospital property with its five created
compliance items of which exactly two are flagged compliant. -/
def hospitalTwoOfFiveState : DBState :=
  { prop := some (exampleProperty PropertyType.HOSPITAL OwnershipType.INDIVIDUAL none)
    compliance_items :=
      (get_applicable_compliance_items PropertyType.HOSPITAL
        OwnershipType.INDIVIDUAL none).zipWith itemOfRequirement
        [true, true, false, false, false]
    gaps := [] }

/-- Database state of a hospital property carrying six compliant
compliance-item rows, one more than the five-entry hospital rule
table (drift the spec allows in section 3). -/
def hospitalOverfullState : DBState :=
  { prop := some (exampleProperty PropertyType.HOSPITAL OwnershipType.INDIVIDUAL none)
    compliance_items :=
      ((get_applicable_compliance_items PropertyType.HOSPITAL
          OwnershipType.INDIVIDUAL none).map (fun req => itemOfRequirement req true)) ++
        [itemOfRequirement specRoofAccess true]
    gaps := [] }

/-- Database state of a freshly created freestanding house: property
row present, no compliance items, no gaps yet. -/
def freshHouseState : DBState :=
  { prop := some (exampleProperty PropertyType.FREESTANDING_HOUSE OwnershipType.INDIVIDUAL none)
    compliance_items := []
    gaps := [] }

/-- Database state of a commercial-office property with three of the
four rule-table items persisted (Accessibility Compliance never
created), the first of them flagged compliant. -/
def commercialOfficeThreeState : DBState :=
  { prop := some (exampleProperty PropertyType.COMMERCIAL_OFFICE OwnershipType.COMPANY none)
    compliance_items :=
      [ itemOfRequirement { name := "Fire Safety COC", category := "safety", individual_responsibility := true } true,
        itemOfRequirement { name := "Occupancy Certificate", category := "legal", individual_responsibility := true } false,
        itemOfRequirement { name := "HVAC System COC", category := "mechanical", individual_responsibility := true } false ]
    gaps := [] }

/-- Same names as `commercialOfficeThreeState` but with every
compliance status flipped. -/
def commercialOfficeThreeStateFlipped : DBState :=
  { prop := some (exampleProperty PropertyType.COMMERCIAL_OFFICE OwnershipType.COMPANY none)
    compliance_items :=
      [ itemOfRequirement { name := "Fire Safety COC", category := "safety", individual_responsibility := true } false,
        itemOfRequirement { name := "Occupancy Certificate", category := "legal", individual_responsibility := true } true,
        itemOfRequirement { name := "HVAC System COC", category := "mechanical", individual_responsibility := true } true ]
    gaps := [] }

/-- Database state of a commercial-office property whose four
compliance items match the rule table exactly, two of them compliant,
and on which gap detection has never been run (no gap rows). -/
def commercialOfficeAgreeState : DBState :=
  { prop := some (exampleProperty PropertyType.COMMERCIAL_OFFICE OwnershipType.COMPANY none)
    compliance_items :=
      (get_applicable_compliance_items PropertyType.COMMERCIAL_OFFICE
        OwnershipType.COMPANY none).zipWith itemOfRequirement
        [true, true, false, false]
    gaps := [] }

/-- Database state of a hospital property with only two persisted
compliance items, one compliant: persisted-row count 2 differs from the
rule-table size 5. -/
def hospitalTwoItemsState : DBState :=
  { prop := some (exampleProperty PropertyType.HOSPITAL OwnershipType.INDIVIDUAL none)
    compliance_items :=
      [ itemOfRequirement { name := "Medical Gas Systems", category := "medical", individual_responsibility := true } true,
        itemOfRequirement { name := "Emergency Power Systems", category := "electrical", individual_responsibility := true } false ]
    gaps := [] }

example :
    (get_applicable_compliance_items PropertyType.VACANT_LAND
      OwnershipType.TRUST none) = [] := by rfl

example :
    (get_applicable_compliance_items PropertyType.SECTIONAL_TITLE_APARTMENT
      OwnershipType.SECTIONAL_TITLE (some FloorLevel.TOP_FLOOR)).length = 5 := by rfl

example : (calculate_documentation_score hospitalTwoOfFiveState).fst = 40 := by
  norm_num [calculate_documentation_score, hospitalTwoOfFiveState, exampleProperty,
    get_applicable_compliance_items, itemOfRequirement, List.filter, List.zipWith]

example : (calculate_documentation_score hospitalOverfullState).fst = 120 := by
  norm_num [calculate_documentation_score, hospitalOverfullState, exampleProperty,
    get_applicable_compliance_items, itemOfRequirement, specRoofAccess, List.filter]

example : (identify_documentation_gaps commercialOfficeThreeState).fst.length = 1 := by
  norm_num [identify_documentation_gaps, commercialOfficeThreeState, exampleProperty,
    get_applicable_compliance_items, itemOfRequirement, List.filter, List.contains]
  decide

example :
    (get_documentation_score commercialOfficeAgreeState).map
      (fun r => r.fst.compliance_percentage) = some 50 := by
  norm_num [get_documentation_score, commercialOfficeAgreeState, exampleProperty,
    calculate_documentation_score, get_applicable_compliance_items, itemOfRequirement,
    List.filter, List.zipWith]

/-- Claim C10: the rule table never inspects the ownership type: for
every property type and every (possibly absent) floor level, any two
ownership types yield identical requirement lists. -/
theorem applicable_items_ownership_independent (pt : PropertyType)
    (o1 o2 : OwnershipType) (fl : Option FloorLevel) :
    get_applicable_compliance_items pt o1 fl =
      get_applicable_compliance_items pt o2 fl := rfl

/-- Claim C4: for a sectional-title apartment or townhouse, the rule
table returns the four base entries (unit electrical and plumbing,
individual; common-area electrical and building structural, shared);
top floor appends the individual Roof Access COC for five entries,
ground floor appends the shared Foundation Inspection for five
entries, and a middle floor leaves exactly the four base entries. -/
theorem sectional_title_rules_by_floor (o : OwnershipType) :
    (get_applicable_compliance_items PropertyType.SECTIONAL_TITLE_APARTMENT o none
        = specSectionalBase ∧
      get_applicable_compliance_items PropertyType.SECTIONAL_TITLE_APARTMENT o
        (some FloorLevel.TOP_FLOOR) = specSectionalBase ++ [specRoofAccess] ∧
      get_applicable_compliance_items PropertyType.SECTIONAL_TITLE_APARTMENT o
        (some FloorLevel.GROUND_FLOOR) = specSectionalBase ++ [specFoundation] ∧
      get_applicable_compliance_items PropertyType.SECTIONAL_TITLE_APARTMENT o
        (some FloorLevel.MIDDLE_FLOOR) = specSectionalBase) ∧
    (get_applicable_compliance_items PropertyType.SECTIONAL_TITLE_TOWNHOUSE o none
        = specSectionalBase ∧
      get_applicable_compliance_items PropertyType.SECTIONAL_TITLE_TOWNHOUSE o
        (some FloorLevel.TOP_FLOOR) = specSectionalBase ++ [specRoofAccess] ∧
      get_applicable_compliance_items PropertyType.SECTIONAL_TITLE_TOWNHOUSE o
        (some FloorLevel.GROUND_FLOOR) = specSectionalBase ++ [specFoundation] ∧
      get_applicable_compliance_items PropertyType.SECTIONAL_TITLE_TOWNHOUSE o
        (some FloorLevel.MIDDLE_FLOOR) = specSectionalBase) ∧
    specSectionalBase.length = 4 ∧
    (specSectionalBase ++ [specRoofAccess]).length = 5 ∧
    (specSectionalBase ++ [specFoundation]).length = 5 ∧
    specRoofAccess.individual_responsibility = true ∧
    specFoundation.individual_responsibility = false :=
  ⟨⟨rfl, rfl, rfl, rfl⟩, ⟨rfl, rfl, rfl, rfl⟩, rfl, rfl, rfl, rfl, rfl⟩

/-- Claim C3: for every property type outside the mapped set and any
ownership type and any (possibly absent) floor level, the rule table
returns the empty list, and the scorer returns 100 on a property so
classified. -/
theorem unmapped_type_rules_empty_score_100 (pt : PropertyType)
    (o : OwnershipType) (fl : Option FloorLevel)
    (h : pt ≠ PropertyType.FREESTANDING_HOUSE ∧
      pt ≠ PropertyType.SECTIONAL_TITLE_APARTMENT ∧
      pt ≠ PropertyType.SECTIONAL_TITLE_TOWNHOUSE ∧
      pt ≠ PropertyType.COMMERCIAL_OFFICE ∧
      pt ≠ PropertyType.SCHOOL ∧
      pt ≠ PropertyType.HOSPITAL)
    (st : DBState) (p : EnhancedProperty) (hp : st.prop = some p)
    (hpt : p.property_type = pt) (ho : p.ownership_type = o)
    (hfl : p.floor_level = fl) :
    get_applicable_compliance_items pt o fl = [] ∧
    (calculate_documentation_score st).fst = 100 := by
  obtain ⟨h1, h2, h3, h4, h5, h6⟩ := h
  have hrules : get_applicable_compliance_items pt o fl = [] := by
    cases pt <;> simp_all [get_applicable_compliance_items]
  refine ⟨hrules, ?_⟩
  simp [calculate_documentation_score, hp, hpt, ho, hfl, hrules]

/-- Witness for claim C3 at a vacant-land property held by an
individual with no floor level. -/
theorem unmapped_type_rules_empty_score_100_witness :
    get_applicable_compliance_items PropertyType.VACANT_LAND
      OwnershipType.INDIVIDUAL none = [] ∧
    (calculate_documentation_score vacantLandState).fst = 100 :=
  unmapped_type_rules_empty_score_100 PropertyType.VACANT_LAND
    OwnershipType.INDIVIDUAL none
    ⟨by decide, by decide, by decide, by decide, by decide, by decide⟩
    vacantLandState
    (exampleProperty PropertyType.VACANT_LAND OwnershipType.INDIVIDUAL none)
    rfl rfl rfl rfl

/-- Counterexample to claim C1 as stated: on a hospital property that
carries six compliant compliance-item rows against the five-entry
hospital rule table, the scorer returns 120, outside [0,100]. -/
theorem score_exceeds_100_on_overfull_hospital :
    (calculate_documentation_score hospitalOverfullState).fst = 120 ∧
    ¬ (calculate_documentation_score hospitalOverfullState).fst ≤ 100 := by
  constructor <;>
    norm_num [calculate_documentation_score, hospitalOverfullState, exampleProperty,
      get_applicable_compliance_items, itemOfRequirement, specRoofAccess, List.filter]

/-- Claim C1 (amended): for every existing property the scorer returns
(compliant-row count) / (rule-table size) * 100, with 100 when the rule
table is empty; the result is never negative, and it lies in [0,100]
whenever the compliant-row count does not exceed the rule-table size. -/
theorem score_formula_and_range (st : DBState) (p : EnhancedProperty)
    (hp : st.prop = some p) :
    (calculate_documentation_score st).fst =
      (if (get_applicable_compliance_items p.property_type p.ownership_type
            p.floor_level).isEmpty then (100 : Rat)
       else
        ((st.compliance_items.filter (fun item => item.is_compliant)).length : Rat) /
          ((get_applicable_compliance_items p.property_type p.ownership_type
            p.floor_level).length : Rat) * 100) ∧
    0 ≤ (calculate_documentation_score st).fst ∧
    ((st.compliance_items.filter (fun item => item.is_compliant)).length ≤
        (get_applicable_compliance_items p.property_type p.ownership_type
          p.floor_level).length →
      (calculate_documentation_score st).fst ≤ 100) := by
  simp only [calculate_documentation_score, hp]
  by_cases hE : (get_applicable_compliance_items p.property_type p.ownership_type
      p.floor_level).isEmpty
  · simp [hE]
  · simp only [if_neg hE]
    have hRpos : 0 < (get_applicable_compliance_items p.property_type
        p.ownership_type p.floor_level).length := by
      cases hL : get_applicable_compliance_items p.property_type p.ownership_type
          p.floor_level with
      | nil => rw [hL] at hE; simp at hE
      | cons a l => simp
    have hRQ : (0 : Rat) < ((get_applicable_compliance_items p.property_type
        p.ownership_type p.floor_level).length : Rat) := by exact_mod_cast hRpos
    refine ⟨trivial, ?_, ?_⟩
    · positivity
    · intro hcle
      have hdiv :
          (((st.compliance_items.filter (fun item => item.is_compliant)).length : Rat) /
            ((get_applicable_compliance_items p.property_type p.ownership_type
              p.floor_level).length : Rat)) ≤ 1 := by
        rw [div_le_one hRQ]
        exact_mod_cast hcle
      linarith

/-- Witness for claim C1 (amended) at a hospital property with its
five created items, two of them compliant. -/
theorem score_formula_and_range_witness :
    hospitalTwoOfFiveState.prop =
      some (exampleProperty PropertyType.HOSPITAL OwnershipType.INDIVIDUAL none) ∧
    0 ≤ (calculate_documentation_score hospitalTwoOfFiveState).fst ∧
    (calculate_documentation_score hospitalTwoOfFiveState).fst ≤ 100 := by
  have h := score_formula_and_range hospitalTwoOfFiveState
    (exampleProperty PropertyType.HOSPITAL OwnershipType.INDIVIDUAL none) rfl
  refine ⟨rfl, h.2.1, h.2.2 ?_⟩
  decide

/-- Counterexample to claim C2 as stated: on a vacant-land property,
whose rule table is empty, the scorer returns 100 but leaves the whole
state untouched, so the stored documentation_score stays at its prior
value 0 instead of the returned 100. -/
theorem vacuous_score_not_persisted :
    (calculate_documentation_score vacantLandState).fst = 100 ∧
    (calculate_documentation_score vacantLandState).snd = vacantLandState ∧
    (calculate_documentation_score vacantLandState).snd.prop.map
      (fun p => p.documentation_score) = some 0 :=
  ⟨rfl, rfl, rfl⟩

/-- Claim C2 (amended): on every existing property whose rule table is
nonempty, the scorer persists the computed score onto the property row
(the stored documentation_score equals the returned value) and changes
no other property field and neither the compliance-item rows nor the
gap rows; when the rule table is empty it returns 100 and leaves the
state entirely unchanged, so the vacuous 100 is not persisted. -/
theorem score_persists_only_documentation_score (st : DBState)
    (p : EnhancedProperty) (hp : st.prop = some p) :
    ((get_applicable_compliance_items p.property_type p.ownership_type
        p.floor_level).isEmpty = false →
      (calculate_documentation_score st).snd.prop =
        some { p with documentation_score := (calculate_documentation_score st).fst }) ∧
    (calculate_documentation_score st).snd.compliance_items = st.compliance_items ∧
    (calculate_documentation_score st).snd.gaps = st.gaps ∧
    ((get_applicable_compliance_items p.property_type p.ownership_type
        p.floor_level).isEmpty = true →
      (calculate_documentation_score st).fst = 100 ∧
      (calculate_documentation_score st).snd = st) := by
  by_cases hE : (get_applicable_compliance_items p.property_type p.ownership_type
      p.floor_level).isEmpty
  · simp [calculate_documentation_score, hp, hE]
  · simp [calculate_documentation_score, hp, hE]

/-- Witness for claim C2 (amended) at a hospital property with two of
its five items compliant: the post-state stores the returned score and
the item rows are untouched. -/
theorem score_persists_only_documentation_score_witness :
    hospitalTwoOfFiveState.prop =
      some (exampleProperty PropertyType.HOSPITAL OwnershipType.INDIVIDUAL none) ∧
    (calculate_documentation_score hospitalTwoOfFiveState).snd.prop =
      some { exampleProperty PropertyType.HOSPITAL OwnershipType.INDIVIDUAL none with
        documentation_score := (calculate_documentation_score hospitalTwoOfFiveState).fst } ∧
    (calculate_documentation_score hospitalTwoOfFiveState).snd.compliance_items =
      hospitalTwoOfFiveState.compliance_items := by
  have h := score_persists_only_documentation_score hospitalTwoOfFiveState
    (exampleProperty PropertyType.HOSPITAL OwnershipType.INDIVIDUAL none) rfl
  exact ⟨rfl, h.1 (by decide), h.2.1⟩

/-- Claim C5: for a hospital property with individual ownership and no
floor level, the rule table returns exactly the five hospital items,
each an individual responsibility, and on such a property with exactly
two compliant rows out of its five created items the scorer returns
40. -/
theorem hospital_rules_and_two_of_five_score (st : DBState)
    (p : EnhancedProperty) (hp : st.prop = some p)
    (hpt : p.property_type = PropertyType.HOSPITAL)
    (ho : p.ownership_type = OwnershipType.INDIVIDUAL)
    (hfl : p.floor_level = none)
    (hlen : st.compliance_items.length = 5)
    (hc : (st.compliance_items.filter (fun item => item.is_compliant)).length = 2) :
    get_applicable_compliance_items PropertyType.HOSPITAL
      OwnershipType.INDIVIDUAL none = specHospitalRules ∧
    (∀ r ∈ specHospitalRules, r.individual_responsibility = true) ∧
    (calculate_documentation_score st).fst = 40 := by
  refine ⟨rfl, by decide, ?_⟩
  simp only [calculate_documentation_score, hp, hpt, ho, hfl]
  norm_num [get_applicable_compliance_items, hc]

/-- Witness for claim C5 at the concrete hospital state with two of
five items compliant. -/
theorem hospital_rules_and_two_of_five_score_witness :
    hospitalTwoOfFiveState.compliance_items.length = 5 ∧
    (hospitalTwoOfFiveState.compliance_items.filter
      (fun item => item.is_compliant)).length = 2 ∧
    (calculate_documentation_score hospitalTwoOfFiveState).fst = 40 :=
  ⟨by decide, by decide,
    (hospital_rules_and_two_of_five_score hospitalTwoOfFiveState
      (exampleProperty PropertyType.HOSPITAL OwnershipType.INDIVIDUAL none)
      rfl rfl rfl rfl (by decide) (by decide)).2.2⟩

/-- Claim C6: on every existing property with no compliance-item rows,
gap detection creates exactly one gap per applicable requirement, with
description built as Missing name for category compliance and severity
high for individual responsibility and medium otherwise; the returned
list is exactly the newly created rows, which are appended to the gap
table, and nothing else changes. -/
theorem gaps_on_fresh_property (st : DBState) (p : EnhancedProperty)
    (hp : st.prop = some p) (hempty : st.compliance_items = []) :
    (identify_documentation_gaps st).fst =
      (get_applicable_compliance_items p.property_type p.ownership_type
        p.floor_level).map (gapOfRequirement p.id) ∧
    (identify_documentation_gaps st).fst.length =
      (get_applicable_compliance_items p.property_type p.ownership_type
        p.floor_level).length ∧
    (identify_documentation_gaps st).snd.gaps =
      st.gaps ++ (identify_documentation_gaps st).fst ∧
    (identify_documentation_gaps st).snd.prop = st.prop ∧
    (identify_documentation_gaps st).snd.compliance_items = st.compliance_items := by
  have hmain : (identify_documentation_gaps st).fst =
      (get_applicable_compliance_items p.property_type p.ownership_type
        p.floor_level).map (gapOfRequirement p.id) := by
    simp [identify_documentation_gaps, hp, hempty, gapOfRequirement]
  refine ⟨hmain, by rw [hmain, List.length_map], ?_, ?_, ?_⟩
  · simp [identify_documentation_gaps, hp]
  · simp [identify_documentation_gaps, hp]
  · simp [identify_documentation_gaps, hp]

/-- Witness for claim C6 at a freshly created freestanding house: five
gaps, one per applicable requirement, all of severity high. -/
theorem gaps_on_fresh_property_witness :
    freshHouseState.compliance_items = [] ∧
    (identify_documentation_gaps freshHouseState).fst.length = 5 ∧
    (identify_documentation_gaps freshHouseState).snd.gaps =
      (identify_documentation_gaps freshHouseState).fst := by
  have h := gaps_on_fresh_property freshHouseState
    (exampleProperty PropertyType.FREESTANDING_HOUSE OwnershipType.INDIVIDUAL none)
    rfl rfl
  refine ⟨rfl, ?_, ?_⟩
  · rw [h.2.1]; rfl
  · rw [h.2.2.1]; rfl

/-- Claim C7: gap detection treats the mere existence of a
compliance-item row with a matching name as not missing, regardless of
its compliance flags: its output depends only on the property row and
the names of the item rows, and for a commercial-office property whose
three persisted rows carry the first three rule-table names, exactly
one gap is created, for the absent Accessibility Compliance item. -/
theorem gap_detection_ignores_compliance_status (st st2 : DBState)
    (p : EnhancedProperty) (hp : st.prop = some p)
    (hp2 : st2.prop = st.prop)
    (hnames : st2.compliance_items.map (fun item => item.name) =
      st.compliance_items.map (fun item => item.name))
    (hpt : p.property_type = PropertyType.COMMERCIAL_OFFICE)
    (hitems : st.compliance_items.map (fun item => item.name) =
      ["Fire Safety COC", "Occupancy Certificate", "HVAC System COC"]) :
    (identify_documentation_gaps st2).fst = (identify_documentation_gaps st).fst ∧
    (identify_documentation_gaps st).fst =
      [gapOfRequirement p.id specAccessibility] := by
  constructor
  · simp only [identify_documentation_gaps, hp2, hp, hnames]
  · simp only [identify_documentation_gaps, hp, hpt, hitems,
      get_applicable_compliance_items, gapOfRequirement, specAccessibility]
    rfl

/-- Witness for claim C7 at two commercial-office states with the same
three item names but opposite compliance flags. -/
theorem gap_detection_ignores_compliance_status_witness :
    (identify_documentation_gaps commercialOfficeThreeStateFlipped).fst =
      (identify_documentation_gaps commercialOfficeThreeState).fst ∧
    (identify_documentation_gaps commercialOfficeThreeState).fst =
      [gapOfRequirement 1 specAccessibility] :=
  gap_detection_ignores_compliance_status commercialOfficeThreeState
    commercialOfficeThreeStateFlipped
    (exampleProperty PropertyType.COMMERCIAL_OFFICE OwnershipType.COMPANY none)
    rfl rfl rfl rfl rfl

/-- Claim C8: the scorer is idempotent: calling it again on the state
it produced returns the same value and reproduces that state, the only
write being the overwrite of the stored score with the same number. -/
theorem score_idempotent (st : DBState) (p : EnhancedProperty)
    (hp : st.prop = some p) :
    (calculate_documentation_score (calculate_documentation_score st).snd).fst =
      (calculate_documentation_score st).fst ∧
    (calculate_documentation_score (calculate_documentation_score st).snd).snd =
      (calculate_documentation_score st).snd := by
  by_cases hE : (get_applicable_compliance_items p.property_type p.ownership_type
      p.floor_level).isEmpty
  · simp [calculate_documentation_score, hp, hE]
  · simp [calculate_documentation_score, hp, hE]

/-- Witness for claim C8 at the concrete hospital state with two of
five items compliant. -/
theorem score_idempotent_witness :
    (calculate_documentation_score
        (calculate_documentation_score hospitalTwoOfFiveState).snd).fst =
      (calculate_documentation_score hospitalTwoOfFiveState).fst ∧
    (calculate_documentation_score
        (calculate_documentation_score hospitalTwoOfFiveState).snd).snd =
      (calculate_documentation_score hospitalTwoOfFiveState).snd :=
  score_idempotent hospitalTwoOfFiveState
    (exampleProperty PropertyType.HOSPITAL OwnershipType.INDIVIDUAL none) rfl

/-- Counterexample to claim C9 as stated: on a commercial-office
property whose four item rows match the rule table, two compliant, and
on which gap detection has never been run (no gap rows), the endpoint
breakdown and the section 4.2 score agree at 50, so the endpoint does
not disagree whenever gap detection has not been run. -/
theorem breakdown_can_agree_without_gap_detection :
    commercialOfficeAgreeState.gaps = [] ∧
    (get_documentation_score commercialOfficeAgreeState).map
      (fun r => r.fst.compliance_percentage) = some 50 ∧
    (get_documentation_score commercialOfficeAgreeState).map
      (fun r => r.fst.documentation_score) = some 50 := by
  refine ⟨rfl, ?_, ?_⟩ <;>
    norm_num [get_documentation_score, commercialOfficeAgreeState, exampleProperty,
      calculate_documentation_score, get_applicable_compliance_items,
      itemOfRequirement, List.filter, List.zipWith]

/-- Claim C9 (amended): the read endpoint computes its compliance
breakdown as compliant rows over persisted rows times 100 (0 when no
rows exist), with no rule-table involvement; for a property with a
nonempty rule table it disagrees with the section 4.2 score whenever
at least one row is compliant and the persisted-row count differs from
the rule-table size, though it can agree even when gap detection has
never been run. -/
theorem breakdown_formula_and_disagreement (st : DBState)
    (p : EnhancedProperty) (hp : st.prop = some p) :
    (get_documentation_score st).map (fun r => r.fst.compliance_percentage) =
      some (if st.compliance_items.length > 0 then
        ((st.compliance_items.filter (fun item => item.is_compliant)).length : Rat) /
          (st.compliance_items.length : Rat) * 100
      else 0) ∧
    ((get_applicable_compliance_items p.property_type p.ownership_type
        p.floor_level).isEmpty = false →
      0 < (st.compliance_items.filter (fun item => item.is_compliant)).length →
      st.compliance_items.length ≠ (get_applicable_compliance_items p.property_type
        p.ownership_type p.floor_level).length →
      (get_documentation_score st).map (fun r => r.fst.compliance_percentage) ≠
        some (calculate_documentation_score st).fst) := by
  have hfirst : (get_documentation_score st).map
      (fun r => r.fst.compliance_percentage) =
      some (if st.compliance_items.length > 0 then
        ((st.compliance_items.filter (fun item => item.is_compliant)).length : Rat) /
          (st.compliance_items.length : Rat) * 100
      else 0) := by
    simp [get_documentation_score, hp]
  refine ⟨hfirst, ?_⟩
  intro hE hcpos hneq
  rw [hfirst]
  have hcN : (st.compliance_items.filter (fun item => item.is_compliant)).length ≤
      st.compliance_items.length := List.length_filter_le _ _
  have hNpos : 0 < st.compliance_items.length := lt_of_lt_of_le hcpos hcN
  have hRpos : 0 < (get_applicable_compliance_items p.property_type
      p.ownership_type p.floor_level).length := by
    cases hL : get_applicable_compliance_items p.property_type p.ownership_type
        p.floor_level with
    | nil => rw [hL] at hE; simp at hE
    | cons a l => simp
  have hscore : (calculate_documentation_score st).fst =
      ((st.compliance_items.filter (fun item => item.is_compliant)).length : Rat) /
        ((get_applicable_compliance_items p.property_type p.ownership_type
          p.floor_level).length : Rat) * 100 := by
    simp [calculate_documentation_score, hp, hE]
  rw [hscore, if_pos hNpos]
  simp only [ne_eq, Option.some.injEq]
  intro heq
  have hcQ : (0 : Rat) <
      ((st.compliance_items.filter (fun item => item.is_compliant)).length : Rat) := by
    exact_mod_cast hcpos
  have hNQ : ((st.compliance_items.length : Rat)) ≠ 0 := by
    have : (0 : Rat) < (st.compliance_items.length : Rat) := by exact_mod_cast hNpos
    exact this.ne'
  have hRQ : (((get_applicable_compliance_items p.property_type p.ownership_type
      p.floor_level).length : Rat)) ≠ 0 := by
    have : (0 : Rat) < ((get_applicable_compliance_items p.property_type
        p.ownership_type p.floor_level).length : Rat) := by exact_mod_cast hRpos
    exact this.ne'
  have heq2 := mul_right_cancel₀ (show (100 : Rat) ≠ 0 by norm_num) heq
  rw [div_eq_div_iff hNQ hRQ] at heq2
  have heq3 := mul_left_cancel₀ hcQ.ne' heq2
  exact hneq (by exact_mod_cast heq3.symm)

/-- Witness for claim C9 (amended) at a hospital property with two
persisted items, one compliant: the breakdown reports 50 while the
section 4.2 score is 20. -/
theorem breakdown_formula_and_disagreement_witness :
    (get_documentation_score hospitalTwoItemsState).map
      (fun r => r.fst.compliance_percentage) = some 50 ∧
    (calculate_documentation_score hospitalTwoItemsState).fst = 20 ∧
    (get_documentation_score hospitalTwoItemsState).map
      (fun r => r.fst.compliance_percentage) ≠
      some (calculate_documentation_score hospitalTwoItemsState).fst := by
  have h := breakdown_formula_and_disagreement hospitalTwoItemsState
    (exampleProperty PropertyType.HOSPITAL OwnershipType.INDIVIDUAL none) rfl
  refine ⟨?_, ?_, h.2 (by decide) (by decide) (by decide)⟩
  · norm_num [get_documentation_score, hospitalTwoItemsState, exampleProperty,
      calculate_documentation_score, get_applicable_compliance_items,
      itemOfRequirement, List.filter]
  · norm_num [calculate_documentation_score, hospitalTwoItemsState, exampleProperty,
      get_applicable_compliance_items, itemOfRequirement, List.filter]
